import Mathlib

/-!
Verification development for the source-ranking, quality-extraction and
metadata-enrichment core of the AudioBookRequest repository.

The definitions below are a shallow embedding of:
  app/internal/ranking/download_ranking.py  (comparator chain CompareSource)
  app/internal/ranking/quality_extract.py   (extract_qualities)
  app/internal/prowlarr/source_metadata.py  (enrichment coordinator)

Python floats are modelled as rationals, machine integers as Int/Nat,
datetimes as integer epoch seconds, raised exceptions as Except.error.
The modules app/internal/models.py and app/internal/ranking/quality.py
are not present in the source tree; the record types and configuration
accessors they provide are modelled from the specification (sections 3
and 4.3) and are marked as such in their doc comments.
-/

/-- Audio file formats, from FileFormat in app/internal/ranking/quality.py
(module absent from the tree; the five values are fixed by spec section 3
and by the match statement in CompareSource.is_valid_quality). -/
inductive FileFormat where
  | flac
  | m4b
  | mp3
  | unknownAudio
  | unknown
deriving DecidableEq

/-- Transfer protocol of a candidate source (Literal in the models). -/
inductive Protocol where
  | torrent
  | usenet
deriving DecidableEq

/-- Modelled from the spec: Book entity (spec section 3) as used by the
ranking core; app/internal/models.py (BookRequest) is absent from the tree. -/
structure BookRequest where
  title : String
  subtitle : Option String
  authors : List String
  narrators : List String
  runtime_length_min : Nat
deriving DecidableEq

/-- Modelled from the spec: CandidateSource (spec section 3) together with
the constructor calls in app/internal/prowlarr/prowlarr.py; the class
itself lives in app/internal/models.py which is absent from the tree.
publish_date is epoch seconds. -/
structure ProwlarrSource where
  guid : String
  indexer_id : Int
  title : String
  seeders : Int
  leechers : Int
  size : Int
  info_url : Option String
  indexer_flags : List String
  download_url : Option String
  magnet_url : Option String
  publish_date : Int
  protocol : Protocol
  authors : List String
  narrators : List String
deriving DecidableEq

/-- Quality from app/internal/ranking/quality_extract.py: an estimated
(bitrate, format) pair; the float kbits is modelled as a rational. -/
structure Quality where
  kbits : ℚ
  file_format : FileFormat
deriving DecidableEq

/-- RankSource from app/internal/ranking/download_ranking.py: one expanded
(source, quality) pair. -/
structure RankSource where
  source : ProwlarrSource
  quality : Quality
deriving DecidableEq

/-- QualityRange (spec section 3): open-interval acceptability bounds. -/
structure QualityRange where
  from_kbits : ℚ
  to_kbits : ℚ
deriving DecidableEq

/-- IndexerFlagScore (spec section 3): additive bonus for a flag. -/
structure IndexerFlagScore where
  flag : String
  score : Int
deriving DecidableEq

/-- Modelled from the spec: RankingConfig (spec section 3), the values
served by quality_config in app/internal/ranking/quality.py (module absent
from the tree). The comparator reads these through the accessors below. -/
structure QualityConfig where
  quality_flac : QualityRange
  quality_m4b : QualityRange
  quality_mp3 : QualityRange
  quality_unknown_audio : QualityRange
  quality_unknown : QualityRange
  min_seeders : Int
  name_exists_ratio : Int
  title_exists_ratio : Int
  indexer_flags : List IndexerFlagScore
  format_order : List FileFormat
  indexer_order : List Int

/-- Modelled from the spec: quality_config.calculate_quality_rank
(spec section 4.3 step 5): position of the format in format_order, lower
is better; formats absent from the list rank last, tied with each other
(List.indexOf returns the length for absent elements). -/
def calculate_quality_rank (cfg : QualityConfig) (f : FileFormat) : Int :=
  (cfg.format_order.indexOf f : Int)

/-- Modelled from the spec: quality_config.calculate_indexer_rank
(spec section 4.3 step 7): position of the indexer id in indexer_order;
unlisted indexers rank last, tied. -/
def calculate_indexer_rank (cfg : QualityConfig) (indexer_id : Int) : Int :=
  (cfg.indexer_order.indexOf indexer_id : Int)

/-- The two rapidfuzz scorers used by the comparator
(fuzz.partial_ratio and fuzz.token_set_ratio, both with the
default_process normalizer applied). rapidfuzz is an external library, so
the scorers are abstracted as arbitrary rational-valued functions; every
claim below holds for all of them. -/
structure RapidFuzz where
  partial_ratio : String → String → ℚ
  token_set_ratio : String → String → ℚ

/-- exists_in_title from download_ranking.py: the fuzzy partial-ratio of
the word against the title strictly exceeds the configured ratio. -/
def exists_in_title (fz : RapidFuzz) (word title : String)
    (title_exists_ratio : Int) : Bool :=
  decide ((title_exists_ratio : ℚ) < fz.partial_ratio word title)

/-- vaguely_exist_in_title from download_ranking.py: the number of words
whose token-set-ratio against the title strictly exceeds the ratio. -/
def vaguely_exist_in_title (fz : RapidFuzz) (words : List String)
    (title : String) (name_exists_ratio : Int) : Int :=
  ((words.filter fun w =>
      decide ((name_exists_ratio : ℚ) < fz.token_set_ratio w title)).length : Int)

/-- Python int() applied to a bool. -/
def boolInt (b : Bool) : Int := if b then 1 else 0

/-- CompareSource.is_valid_quality: the quality bitrate lies strictly
inside the configured range for its file format (the match statement
selecting the per-format range is from the source; the ranges themselves
come from the modelled configuration record). -/
def is_valid_quality (cfg : QualityConfig) (a : RankSource) : Bool :=
  let quality_range :=
    match a.quality.file_format with
    | .flac => cfg.quality_flac
    | .m4b => cfg.quality_m4b
    | .mp3 => cfg.quality_mp3
    | .unknownAudio => cfg.quality_unknown_audio
    | .unknown => cfg.quality_unknown
  decide (quality_range.from_kbits < a.quality.kbits ∧
          a.quality.kbits < quality_range.to_kbits)

/-- The validity test applied to each argument inside
CompareSource.compare_valid: torrent sources must additionally have at
least min_seeders seeders; usenet sources skip the seeder check. -/
def source_valid (cfg : QualityConfig) (a : RankSource) : Bool :=
  match a.source.protocol with
  | .torrent => is_valid_quality cfg a && decide (cfg.min_seeders ≤ a.source.seeders)
  | .usenet => is_valid_quality cfg a

/-!
Each comparison criterion of CompareSource is embedded as a function
returning Option Int: the Python code either returns an integer decision
(possibly 0, which terminates the chain) or calls the next criterion in
the chain; the former is `some v`, the latter is `none`. The chain itself
(compare / get_next_compare) is the fold chainCompare below, which takes
the first `some` and returns 0 when every criterion defers.
-/

/-- CompareSource.compare_valid: partitions valid before invalid pairs;
defers when both sides agree on validity. -/
def compare_valid (cfg : QualityConfig) (a b : RankSource) : Option Int :=
  let a_valid := source_valid cfg a
  let b_valid := source_valid cfg b
  if a_valid = b_valid then none
  else some (boolInt b_valid - boolInt a_valid)

/-- CompareSource.compare_title: fuzzy title presence test. -/
def compare_title (fz : RapidFuzz) (cfg : QualityConfig) (book : BookRequest)
    (a b : RankSource) : Option Int :=
  let a_title := exists_in_title fz book.title a.source.title cfg.title_exists_ratio
  let b_title := exists_in_title fz book.title b.source.title cfg.title_exists_ratio
  if a_title = b_title then none
  else some (boolInt b_title - boolInt a_title)

/-- CompareSource.compare_subtitle: skipped entirely when the book has no
subtitle (None or empty string are falsy in Python). -/
def compare_subtitle (fz : RapidFuzz) (cfg : QualityConfig) (book : BookRequest)
    (a b : RankSource) : Option Int :=
  match book.subtitle with
  | none => none
  | some st =>
    if st = "" then none
    else
      let a_title := exists_in_title fz st a.source.title cfg.title_exists_ratio
      let b_title := exists_in_title fz st b.source.title cfg.title_exists_ratio
      if a_title = b_title then none
      else some (boolInt b_title - boolInt a_title)

/-- CompareSource.compare_authors: count of authors fuzzily present in the
source title; higher count wins. -/
def compare_authors (fz : RapidFuzz) (cfg : QualityConfig) (book : BookRequest)
    (a b : RankSource) : Option Int :=
  let a_score := vaguely_exist_in_title fz book.authors a.source.title cfg.name_exists_ratio
  let b_score := vaguely_exist_in_title fz book.authors b.source.title cfg.name_exists_ratio
  if a_score = b_score then none
  else some (b_score - a_score)

/-- CompareSource.compare_narrators: same scoring over the narrators. -/
def compare_narrators (fz : RapidFuzz) (cfg : QualityConfig) (book : BookRequest)
    (a b : RankSource) : Option Int :=
  let a_score := vaguely_exist_in_title fz book.narrators a.source.title cfg.name_exists_ratio
  let b_score := vaguely_exist_in_title fz book.narrators b.source.title cfg.name_exists_ratio
  if a_score = b_score then none
  else some (b_score - a_score)

/-- CompareSource.compare_format: defers only when the formats are equal;
for distinct formats it returns the rank difference, which is a terminal
decision even when it happens to be 0 (both formats unlisted). -/
def compare_format (cfg : QualityConfig) (a b : RankSource) : Option Int :=
  if a.quality.file_format = b.quality.file_format then none
  else some (calculate_quality_rank cfg a.quality.file_format -
             calculate_quality_rank cfg b.quality.file_format)

/-- Python str.lower as applied by the code (title and flag probes):
every character lower-cased. Defined over the character list, which is
what String.toLower does character by character. -/
def strToLower (s : String) : String := ⟨s.data.map Char.toLower⟩

/-- The additive indexer-flag bonus of one source: sum of the scores of
every configured flag whose lower-cased name occurs in the source's
indexer_flags list. -/
def flag_score (cfg : QualityConfig) (s : ProwlarrSource) : Int :=
  ((cfg.indexer_flags.filter fun f => s.indexer_flags.contains (strToLower f.flag)).map
    (fun f => f.score)).sum

/-- CompareSource.compare_flags: higher flag score wins. -/
def compare_flags (cfg : QualityConfig) (a b : RankSource) : Option Int :=
  let a_score := flag_score cfg a.source
  let b_score := flag_score cfg b.source
  if a_score = b_score then none
  else some (b_score - a_score)

/-- CompareSource.compare_indexer: lower indexer rank wins; defers when
the two ranks are equal. -/
def compare_indexer (cfg : QualityConfig) (a b : RankSource) : Option Int :=
  let a_index := calculate_indexer_rank cfg a.source.indexer_id
  let b_index := calculate_indexer_rank cfg b.source.indexer_id
  if a_index = b_index then none
  else some (a_index - b_index)

/-- CompareSource.compare_seeders: defers whenever either side is usenet,
and when the seeder counts tie; otherwise more seeders wins. -/
def compare_seeders (a b : RankSource) : Option Int :=
  if a.source.protocol = Protocol.usenet ∨ b.source.protocol = Protocol.usenet then none
  else if a.source.seeders = b.source.seeders then none
  else some (b.source.seeders - a.source.seeders)

/-- CompareSource.compare_age: defers for mixed protocols; otherwise
returns the publish-date difference in seconds (a terminal decision):
a minus b for usenet pairs, b minus a for torrent pairs. -/
def compare_age (a b : RankSource) : Option Int :=
  if a.source.protocol ≠ b.source.protocol then none
  else if a.source.protocol = Protocol.usenet then
    some (a.source.publish_date - b.source.publish_date)
  else
    some (b.source.publish_date - a.source.publish_date)

/-- The compare_order list built in CompareSource.init, in source order. -/
def compare_order (fz : RapidFuzz) (cfg : QualityConfig) (book : BookRequest) :
    List (RankSource → RankSource → Option Int) :=
  [compare_valid cfg,
   compare_title fz cfg book,
   compare_authors fz cfg book,
   compare_narrators fz cfg book,
   compare_format cfg,
   compare_flags cfg,
   compare_indexer cfg,
   compare_subtitle fz cfg book,
   compare_seeders,
   compare_age]

/-- The short-circuit chaining of CompareSource.compare /
get_next_compare: the first criterion that returns (rather than calling
the next one) decides; past the end, default_compare returns 0. -/
def chainCompare : List (RankSource → RankSource → Option Int) →
    RankSource → RankSource → Int
  | [], _, _ => 0
  | c :: cs, a, b =>
    match c a b with
    | some v => v
    | none => chainCompare cs a b

/-- CompareSource.compare: negative means a ranks before (better than) b
under the ascending sort in rank_sources. -/
def compare_source (fz : RapidFuzz) (cfg : QualityConfig) (book : BookRequest)
    (a b : RankSource) : Int :=
  chainCompare (compare_order fz cfg book) a b

/-!
Quality extraction, from app/internal/ranking/quality_extract.py.
-/

/-- ENABLE_TORRENT_INSPECTION from quality_extract.py; the source sets it
to False (with a HACK comment about rate limiting), which makes the whole
container-download block statically dead. -/
def ENABLE_TORRENT_INSPECTION : Bool := false

/-- Python truthiness of an optional string: None and the empty string
are falsy. Used for the api-key guard in extract_qualities. -/
def optStrFalsy : Option String → Bool
  | none => true
  | some s => s.isEmpty

/-- The Prowlarr configuration slice read by extract_qualities
(prowlarr_config.get_api_key in app/internal/prowlarr/prowlarr.py, a
string-config lookup that yields None when the key was never set). -/
structure ProwlarrConfig where
  prowlarr_api_key : Option String

/-- Case-insensitive needle lookup done in quality_extract.py heuristic
mode: Python `needle in haystack` substring membership. -/
def strContainsSub (hay needle : String) : Bool :=
  decide (needle.data <:+: hay.data)

/-- The heuristic file-format classification of quality_extract.py:
case-insensitive substring probes on the source title, in source order
(mp3, then flac, then m4b, then audiobook, else unknown). -/
def heuristic_format (title : String) : FileFormat :=
  if strContainsSub (strToLower title) "mp3" then .mp3
  else if strContainsSub (strToLower title) "flac" then .flac
  else if strContainsSub (strToLower title) "m4b" then .m4b
  else if strContainsSub (strToLower title) "audiobook" then .unknownAudio
  else .unknown

/-- extract_qualities from quality_extract.py. A raised ValueError is an
Except.error carrying the message. The container-inspection block is
guarded by `source.download_url and ENABLE_TORRENT_INSPECTION`; since the
flag is False in the source the guard is statically false, which the
embedding records by refuting the guard rather than modelling the dead
network code. Heuristic mode then emits exactly one Quality with
kbits = 8 * size / book_seconds / 1000. -/
def extract_qualities (cfg : ProwlarrConfig) (source : ProwlarrSource)
    (book : BookRequest) : Except String (List Quality) :=
  if optStrFalsy cfg.prowlarr_api_key then
    .error "Prowlarr API key not set"
  else
    let book_seconds : Nat := book.runtime_length_min * 60
    if book_seconds = 0 then .ok []
    else
      if h : (source.download_url.isSome && ENABLE_TORRENT_INSPECTION) = true then
        absurd h (by simp [ENABLE_TORRENT_INSPECTION])
      else
        .ok [{ kbits := 8 * (source.size : ℚ) / (book_seconds : ℚ) / 1000,
               file_format := heuristic_format source.title }]

/-!
Metadata-enrichment coordinator, from
app/internal/prowlarr/source_metadata.py (edit_source_metadata).

The registered plugins are AbstractIndexer implementations
(app/internal/indexers/abstract.py). A plugin is modelled by the
observable behaviour of its methods during one enrichment call:
whether resolving its configuration succeeds (create_valued_configuration
either returns or raises a ConfigurationException), the outcome of its
setup coroutine, its is_matching_source predicate (a pure predicate per
spec section 4.2), and its edit_source_metadata action, which either
returns the mutated source or raises. The active flag (for the
MyAnonamouse plugin: MamConfig.is_active in
app/internal/indexers/mam.py, true iff the mam_active config string
equals "True") is carried alongside so that claims about inactive plugins
can be stated.
-/

/-- One registered indexer plugin, abstracted to its observable behaviour
during a single enrichment call. The field edit_source stands for the
plugin's edit_source_metadata method: ok returns the source with the
plugin's in-place mutations applied, error models a raised exception. -/
structure IndexerPlugin where
  active : Bool
  configOk : Bool
  setup : Except String Unit
  is_matching_source : ProwlarrSource → Bool
  edit_source : ProwlarrSource → Except String ProwlarrSource

/-- The plugin-matching loop body of edit_source_metadata: walk the valued
plugin list in registration order and stop at the first plugin whose
is_matching_source returns true (the `break`), yielding its index. -/
def matchOwner : List IndexerPlugin → ProwlarrSource → Option Nat
  | [], _ => none
  | p :: ps, s =>
    if p.is_matching_source s then some 0
    else (matchOwner ps s).map (fun i => i + 1)

/-- The coros list built by the matching loop: one (source position,
plugin position) pair per source that found an owner, in source order.
The first argument of the recursion is the position of the head of the
remaining source list. -/
def editCallsAux (valued : List IndexerPlugin) : Nat → List ProwlarrSource →
    List (Nat × Nat)
  | _, [] => []
  | k, s :: ss =>
    match matchOwner valued s with
    | some i => (k, i) :: editCallsAux valued (k + 1) ss
    | none => editCallsAux valued (k + 1) ss

/-- The net effect of the second gather on one source: the owning
plugin's edit_source_metadata runs with its failure isolated by
return_exceptions=True (a raised exception leaves the source as it was);
a source with no owner is untouched. -/
def applyEdit (valued : List IndexerPlugin) (s : ProwlarrSource) : ProwlarrSource :=
  match matchOwner valued s with
  | some i =>
    match valued.get? i with
    | some p =>
      match p.edit_source s with
      | .ok s2 => s2
      | .error _ => s
    | none => s
  | none => s

/-- The observable outcome of one edit_source_metadata coordinator call:
the recorded result of every setup that was invoked (in valued-plugin
order), the edit invocations that were queued, and the final state of the
source list after the isolated edits. -/
structure EnrichOutcome where
  setupOutcomes : List (Except String Unit)
  editCalls : List (Nat × Nat)
  finalSources : List ProwlarrSource

/-- edit_source_metadata from app/internal/prowlarr/source_metadata.py.
Step 1 (the for loop with try/except ConfigurationException) keeps
exactly the plugins whose configuration resolves: the filter on configOk.
Step 2 runs every kept plugin's setup under
asyncio.gather(return_exceptions=True): all of them run and each outcome,
exception included, is collected instead of being re-raised.
Step 3 matches every source to the first kept plugin that claims it and
queues that single plugin's edit_source_metadata call.
Step 4 runs the queued edits, again with isolated failures.
The function is total: no exception escapes the coordinator. -/
def edit_source_metadata (plugins : List IndexerPlugin)
    (sources : List ProwlarrSource) : EnrichOutcome :=
  let valued := plugins.filter (fun p => p.configOk)
  { setupOutcomes := valued.map (fun p => p.setup),
    editCalls := editCallsAux valued 0 sources,
    finalSources := sources.map (applyEdit valued) }

deriving instance DecidableEq for Except

/-!
Concrete fixtures, used only to evaluate the theorems below at explicit
inputs.
-/

/-- A constant fuzzy scorer: every comparison scores 0. -/
def fzZ : RapidFuzz := ⟨fun _ _ => 0, fun _ _ => 0⟩

/-- A wide-open acceptability range. -/
def rangeW : QualityRange := ⟨0, 100000⟩

/-- A concrete ranking configuration: all ranges wide open, two seeders
required, both fuzzy thresholds at 50, no flag bonuses, empty order
lists. -/
def cfgW : QualityConfig :=
  { quality_flac := rangeW, quality_m4b := rangeW, quality_mp3 := rangeW,
    quality_unknown_audio := rangeW, quality_unknown := rangeW,
    min_seeders := 2, name_exists_ratio := 50, title_exists_ratio := 50,
    indexer_flags := [], format_order := [], indexer_order := [] }

/-- A concrete book with a one-hour runtime and no subtitle. -/
def bookW : BookRequest := ⟨"Dune", none, [], [], 60⟩

/-- A concrete book whose runtime is zero minutes. -/
def bookZero : BookRequest := ⟨"Dune", none, [], [], 0⟩

/-- A concrete source parameterized by publish date, seeder count and
protocol. -/
def mkSource (pub seeders : Int) (proto : Protocol) : ProwlarrSource :=
  ⟨"guid", 1, "Dune [M4B]", seeders, 0, 450000000, none, [], none, none,
   pub, proto, [], []⟩

/-- A concrete expanded pair over mkSource with a chosen bitrate. -/
def mkRank (pub seeders : Int) (proto : Protocol) (q : ℚ) : RankSource :=
  ⟨mkSource pub seeders proto, ⟨q, .mp3⟩⟩

/-- A Prowlarr configuration with the api key present. -/
def cfgKey : ProwlarrConfig := ⟨some "key"⟩

/-- A Prowlarr configuration with the api key never set. -/
def cfgNoKey : ProwlarrConfig := ⟨none⟩

/-- A plugin that is inactive by configuration yet has a valid
configuration, matches every source and marks every source it edits. -/
def pluginInactive : IndexerPlugin :=
  { active := false, configOk := true, setup := .ok (),
    is_matching_source := fun _ => true,
    edit_source := fun s => .ok { s with title := "MARKED" } }

/-- A config-valid plugin that matches nothing and whose setup fails. -/
def pluginFailing : IndexerPlugin :=
  { active := true, configOk := true, setup := .error "boom",
    is_matching_source := fun _ => false,
    edit_source := fun s => .ok s }

/-- A config-valid, healthy plugin that matches every source and renames
its title. -/
def pluginHealthy : IndexerPlugin :=
  { active := true, configOk := true, setup := .ok (),
    is_matching_source := fun _ => true,
    edit_source := fun s => .ok { s with title := "ENRICHED" } }

/-- A concrete plain source for the enrichment fixtures. -/
def srcPlain : ProwlarrSource := mkSource 0 5 .torrent

/-!
Theorems.
-/

/-- Claim C1: a pair that passes the validity test (bitrate strictly
inside the configured range for its format, and, for torrent sources,
seeders at least min_seeders) always sorts before a pair that fails it,
whatever the fuzzy scorers, the book and every later criterion say. -/
theorem validity_partition (fz : RapidFuzz) (cfg : QualityConfig)
    (book : BookRequest) (a b : RankSource)
    (ha : source_valid cfg a = true) (hb : source_valid cfg b = false) :
    compare_source fz cfg book a b < 0 := by
  simp [compare_source, compare_order, chainCompare, compare_valid, ha, hb, boolInt]

/-- Witness for C1: a concrete valid torrent pair against a concrete pair
whose bitrate exceeds the range. -/
theorem validity_partition_witness :
    source_valid cfgW (mkRank 0 5 .torrent 100) = true ∧
    source_valid cfgW (mkRank 0 5 .torrent 200000) = false ∧
    compare_source fzZ cfgW bookW (mkRank 0 5 .torrent 100)
      (mkRank 0 5 .torrent 200000) < 0 :=
  ⟨by decide, by decide,
   validity_partition fzZ cfgW bookW _ _ (by decide) (by decide)⟩

/-- Claim C5: when the two pairs use different protocols, the seeder
criterion and the age criterion both defer to the next criterion; neither
ever decides a mixed-protocol comparison. -/
theorem mixed_protocol_skip (a b : RankSource)
    (h : a.source.protocol ≠ b.source.protocol) :
    compare_seeders a b = none ∧ compare_age a b = none := by
  have husenet : a.source.protocol = Protocol.usenet ∨
      b.source.protocol = Protocol.usenet := by
    cases ha : a.source.protocol <;> cases hb : b.source.protocol <;> simp_all
  exact ⟨by simp [compare_seeders, husenet], by simp [compare_age, h]⟩

/-- Witness for C5: a concrete torrent pair against a concrete usenet
pair. -/
theorem mixed_protocol_skip_witness :
    (mkRank 0 5 .torrent 100).source.protocol ≠
      (mkRank 0 9 .usenet 100).source.protocol ∧
    (compare_seeders (mkRank 0 5 .torrent 100) (mkRank 0 9 .usenet 100) = none ∧
     compare_age (mkRank 0 5 .torrent 100) (mkRank 0 9 .usenet 100) = none) :=
  ⟨by decide, mixed_protocol_skip _ _ (by decide)⟩

/-- Claim C6: for two torrent pairs on which the eight earlier criteria
(validity, title, authors, narrators, format, flags, indexer, subtitle)
all defer, the pair with strictly more seeders sorts first. -/
theorem seeders_tiebreak (fz : RapidFuzz) (cfg : QualityConfig)
    (book : BookRequest) (a b : RankSource)
    (hat : a.source.protocol = Protocol.torrent)
    (hbt : b.source.protocol = Protocol.torrent)
    (h1 : compare_valid cfg a b = none)
    (h2 : compare_title fz cfg book a b = none)
    (h3 : compare_authors fz cfg book a b = none)
    (h4 : compare_narrators fz cfg book a b = none)
    (h5 : compare_format cfg a b = none)
    (h6 : compare_flags cfg a b = none)
    (h7 : compare_indexer cfg a b = none)
    (h8 : compare_subtitle fz cfg book a b = none)
    (hs : b.source.seeders < a.source.seeders) :
    compare_source fz cfg book a b < 0 := by
  have hne : ¬ a.source.seeders = b.source.seeders := by omega
  simp [compare_source, compare_order, chainCompare, h1, h2, h3, h4, h5, h6, h7, h8,
        compare_seeders, hat, hbt, hne]
  omega

/-- Witness for C6: two concrete torrent pairs identical except for their
seeder counts (10 against 3). -/
theorem seeders_tiebreak_witness :
    compare_valid cfgW (mkRank 0 10 .torrent 100) (mkRank 0 3 .torrent 100) = none ∧
    compare_subtitle fzZ cfgW bookW (mkRank 0 10 .torrent 100)
      (mkRank 0 3 .torrent 100) = none ∧
    (mkRank 0 3 .torrent 100).source.seeders <
      (mkRank 0 10 .torrent 100).source.seeders ∧
    compare_source fzZ cfgW bookW (mkRank 0 10 .torrent 100)
      (mkRank 0 3 .torrent 100) < 0 :=
  ⟨by decide, by decide, by decide,
   seeders_tiebreak fzZ cfgW bookW _ _ (by decide) (by decide) (by decide)
     (by decide) (by decide) (by decide) (by decide) (by decide) (by decide)
     (by decide) (by decide)⟩

/-- Claim C2 (code bug exhibit): an evaluation of the comparator on pairs
that differ only in publish date. The first conjunct takes two torrent
pairs with the first argument 100 seconds older: the comparator returns
+100, ranking the newer one first, although the inline comment in
CompareSource.compare_age says "With torrents: older => better". The
second conjunct takes two usenet pairs with the first argument 100
seconds newer: the comparator again returns +100, ranking the older one
first, against the comment "With usenets: newer => better". The two
protocol branches of compare_age are swapped. -/
theorem compare_age_swapped :
    compare_source fzZ cfgW bookW (mkRank 0 5 .torrent 100)
      (mkRank 100 5 .torrent 100) = 100 ∧
    compare_source fzZ cfgW bookW (mkRank 100 5 .usenet 100)
      (mkRank 0 5 .usenet 100) = 100 := by decide

/-- Claim C3: with the api key configured, a book whose runtime is zero
minutes makes extract_qualities return the empty list for every source,
with no error raised. -/
theorem zero_runtime_empty (cfg : ProwlarrConfig) (source : ProwlarrSource)
    (book : BookRequest)
    (hk : optStrFalsy cfg.prowlarr_api_key = false)
    (h0 : book.runtime_length_min = 0) :
    extract_qualities cfg source book = .ok [] := by
  simp [extract_qualities, hk, h0]

/-- Witness for C3: a zero-runtime book and a source that even carries a
download url. -/
theorem zero_runtime_empty_witness :
    optStrFalsy cfgKey.prowlarr_api_key = false ∧
    bookZero.runtime_length_min = 0 ∧
    extract_qualities cfgKey
      { mkSource 0 5 .torrent with download_url := some "u" } bookZero = .ok [] :=
  ⟨by decide, by decide, zero_runtime_empty _ _ _ (by decide) (by decide)⟩

/-- Claim C4: with the api key configured and a positive runtime,
extraction (the inspection flag is off in the source, so heuristic mode)
returns exactly one Quality whose kbits is 8 * size / (runtime * 60) /
1000, and whose format follows the title-substring priority: mp3 first,
else flac, else m4b, else audiobook as unknown-audio, else unknown. -/
theorem heuristic_extraction_formula (cfg : ProwlarrConfig)
    (source : ProwlarrSource) (book : BookRequest)
    (hk : optStrFalsy cfg.prowlarr_api_key = false)
    (hr : 0 < book.runtime_length_min) :
    extract_qualities cfg source book =
      .ok [{ kbits := 8 * (source.size : ℚ) /
                        ((book.runtime_length_min : ℚ) * 60) / 1000,
             file_format := heuristic_format source.title }] ∧
    (strContainsSub (strToLower source.title) "mp3" = true →
       heuristic_format source.title = .mp3) ∧
    (strContainsSub (strToLower source.title) "mp3" = false →
     strContainsSub (strToLower source.title) "flac" = true →
       heuristic_format source.title = .flac) ∧
    (strContainsSub (strToLower source.title) "mp3" = false →
     strContainsSub (strToLower source.title) "flac" = false →
     strContainsSub (strToLower source.title) "m4b" = true →
       heuristic_format source.title = .m4b) ∧
    (strContainsSub (strToLower source.title) "mp3" = false →
     strContainsSub (strToLower source.title) "flac" = false →
     strContainsSub (strToLower source.title) "m4b" = false →
     strContainsSub (strToLower source.title) "audiobook" = true →
       heuristic_format source.title = .unknownAudio) ∧
    (strContainsSub (strToLower source.title) "mp3" = false →
     strContainsSub (strToLower source.title) "flac" = false →
     strContainsSub (strToLower source.title) "m4b" = false →
     strContainsSub (strToLower source.title) "audiobook" = false →
       heuristic_format source.title = .unknown) := by
  have h0 : ¬ book.runtime_length_min * 60 = 0 := by omega
  refine ⟨?_, ?_, ?_, ?_, ?_, ?_⟩
  · simp [extract_qualities, hk, h0, ENABLE_TORRENT_INSPECTION, Nat.cast_mul]
  all_goals intros; simp_all [heuristic_format]

/-- Witness for C4: a 450 MB source titled "Dune [M4B]" over a one-hour
book yields exactly one m4b Quality at 1000 kbit/s. -/
theorem heuristic_extraction_formula_witness :
    optStrFalsy cfgKey.prowlarr_api_key = false ∧
    0 < bookW.runtime_length_min ∧
    extract_qualities cfgKey (mkSource 0 5 .torrent) bookW =
      .ok [{ kbits := 1000, file_format := .m4b }] :=
  ⟨by decide, by decide, by
    have h := (heuristic_extraction_formula cfgKey (mkSource 0 5 .torrent) bookW
      (by decide) (by decide)).1
    rw [h]
    have hk : 8 * (((mkSource 0 5 .torrent).size : ℚ)) /
        ((bookW.runtime_length_min : ℚ) * 60) / 1000 = 1000 := by
      norm_num [mkSource, bookW]
    have hf : heuristic_format (mkSource 0 5 .torrent).title = .m4b := by decide
    rw [hk, hf]⟩

/-- Claim C10: with the api key never set, extract_qualities raises
ValueError with the message "Prowlarr API key not set" for every source
and every book, a zero-runtime book included. -/
theorem api_key_error (cfg : ProwlarrConfig) (source : ProwlarrSource)
    (book : BookRequest) (hk : cfg.prowlarr_api_key = none) :
    extract_qualities cfg source book = .error "Prowlarr API key not set" := by
  simp [extract_qualities, optStrFalsy, hk]

/-- Witness for C10: the unset key raises even for a zero-runtime book. -/
theorem api_key_error_witness :
    cfgNoKey.prowlarr_api_key = none ∧
    bookZero.runtime_length_min = 0 ∧
    extract_qualities cfgNoKey (mkSource 0 5 .torrent) bookZero =
      .error "Prowlarr API key not set" :=
  ⟨rfl, rfl, api_key_error _ _ _ rfl⟩

/-- Helper: the index produced by the matching loop points at a plugin
that matches the source, and every plugin before it does not match. -/
theorem matchOwner_first (plugins : List IndexerPlugin) (s : ProwlarrSource)
    (i : Nat) (h : matchOwner plugins s = some i) :
    ∃ p, plugins.get? i = some p ∧ p.is_matching_source s = true ∧
      ∀ j q, j < i → plugins.get? j = some q → q.is_matching_source s = false := by
  induction plugins generalizing i with
  | nil => simp [matchOwner] at h
  | cons p ps ih =>
    by_cases hp : p.is_matching_source s
    · simp [matchOwner, hp] at h
      subst h
      exact ⟨p, rfl, hp, fun j q hj _ => absurd hj (Nat.not_lt_zero j)⟩
    · simp [matchOwner, hp, Option.map_eq_some'] at h
      obtain ⟨i0, h0, rfl⟩ := h
      obtain ⟨q, hq, hm, hfirst⟩ := ih i0 h0
      refine ⟨q, by simpa using hq, hm, ?_⟩
      intro j r hj hr
      cases j with
      | zero =>
        simp [List.get?] at hr
        subst hr
        simpa using hp
      | succ j0 =>
        exact hfirst j0 r (by omega) (by simpa using hr)

/-- Helper: membership in the queued edit-call list determines the source
at that position and its owner. -/
theorem editCallsAux_mem (valued : List IndexerPlugin) (n : Nat)
    (ss : List ProwlarrSource) (k i : Nat)
    (h : (k, i) ∈ editCallsAux valued n ss) :
    n ≤ k ∧ ∃ s, ss.get? (k - n) = some s ∧ matchOwner valued s = some i := by
  induction ss generalizing n with
  | nil => simp [editCallsAux] at h
  | cons s ss ih =>
    rw [editCallsAux] at h
    cases hm : matchOwner valued s with
    | some i0 =>
      rw [hm] at h
      rcases List.mem_cons.mp h with heq | htail
      · obtain ⟨rfl, rfl⟩ := Prod.mk.inj heq
        exact ⟨Nat.le_refl _, s, by simp, hm⟩
      · obtain ⟨hn, s', hget, hmo⟩ := ih (n + 1) htail
        refine ⟨by omega, s', ?_, hmo⟩
        have hk : k - n = (k - (n + 1)) + 1 := by omega
        rw [hk]
        simpa using hget
    | none =>
      rw [hm] at h
      obtain ⟨hn, s', hget, hmo⟩ := ih (n + 1) h
      refine ⟨by omega, s', ?_, hmo⟩
      have hk : k - n = (k - (n + 1)) + 1 := by omega
      rw [hk]
      simpa using hget

/-- Claim C7: in one coordinator call, a given source position is edited
by at most one plugin, namely the first configuration-valid plugin in
registration order whose is_matching_source accepts the source; every
earlier plugin rejected it. -/
theorem single_owner_enrichment (plugins : List IndexerPlugin)
    (sources : List ProwlarrSource) (k i j : Nat)
    (h : (k, i) ∈ (edit_source_metadata plugins sources).editCalls)
    (h' : (k, j) ∈ (edit_source_metadata plugins sources).editCalls) :
    i = j ∧ ∃ s p, sources.get? k = some s ∧
      (plugins.filter (fun q => q.configOk)).get? i = some p ∧
      p.is_matching_source s = true ∧
      ∀ m q, m < i → (plugins.filter (fun r => r.configOk)).get? m = some q →
        q.is_matching_source s = false := by
  have hmem := editCallsAux_mem (plugins.filter (fun q => q.configOk)) 0 sources k i
    (by simpa [edit_source_metadata] using h)
  have hmem' := editCallsAux_mem (plugins.filter (fun q => q.configOk)) 0 sources k j
    (by simpa [edit_source_metadata] using h')
  obtain ⟨-, s, hget, hmo⟩ := hmem
  obtain ⟨-, s', hget', hmo'⟩ := hmem'
  simp only [Nat.sub_zero] at hget hget'
  obtain rfl : s = s' := Option.some.inj (hget.symm.trans hget')
  have hij : i = j := by
    have := hmo.symm.trans hmo'
    simpa using this
  subst hij
  obtain ⟨p, hp, hm, hfirst⟩ := matchOwner_first _ s i hmo
  exact ⟨rfl, s, p, hget, hp, hm, hfirst⟩

/-- Witness for C7: two plugins where only the second matches; the single
queued edit call for source position 0 names plugin index 1. -/
theorem single_owner_enrichment_witness :
    ((0, 1) ∈ (edit_source_metadata [pluginFailing, pluginHealthy] [srcPlain]).editCalls) ∧
    (1 = 1 ∧ ∃ s p, [srcPlain].get? 0 = some s ∧
      ([pluginFailing, pluginHealthy].filter (fun q => q.configOk)).get? 1 = some p ∧
      p.is_matching_source s = true ∧
      ∀ m q, m < 1 →
        ([pluginFailing, pluginHealthy].filter (fun r => r.configOk)).get? m = some q →
        q.is_matching_source s = false) :=
  ⟨by decide,
   single_owner_enrichment [pluginFailing, pluginHealthy] [srcPlain] 0 1 1
     (by decide) (by decide)⟩

/-- Claim C8: when the setup of one configuration-valid plugin fails, the
coordinator records that exception instead of re-raising it, every other
plugin's setup outcome is still recorded, and the edit phase still runs
over all sources exactly as the matching dictates. -/
theorem plugin_setup_isolation (plugins : List IndexerPlugin)
    (sources : List ProwlarrSource) (i : Nat) (p : IndexerPlugin) (e : String)
    (hp : (plugins.filter (fun q => q.configOk)).get? i = some p)
    (he : p.setup = .error e) :
    (edit_source_metadata plugins sources).setupOutcomes.get? i =
      some (Except.error e) ∧
    (∀ j q, j ≠ i → (plugins.filter (fun r => r.configOk)).get? j = some q →
      (edit_source_metadata plugins sources).setupOutcomes.get? j = some q.setup) ∧
    (edit_source_metadata plugins sources).finalSources =
      sources.map (applyEdit (plugins.filter (fun r => r.configOk))) := by
  refine ⟨?_, ?_, rfl⟩
  · show ((plugins.filter (fun q => q.configOk)).map (fun r => r.setup)).get? i = _
    rw [List.get?_map, hp]
    simp [he]
  · intro j q hj hq
    show ((plugins.filter (fun r => r.configOk)).map (fun r => r.setup)).get? j = _
    rw [List.get?_map, hq]
    rfl

/-- Witness for C8: the first of two plugins fails its setup; the error
is captured, the healthy plugin's setup outcome is recorded, and the
source list is still enriched. -/
theorem plugin_setup_isolation_witness :
    (([pluginFailing, pluginHealthy].filter (fun q => q.configOk)).get? 0 =
      some pluginFailing) ∧
    pluginFailing.setup = .error "boom" ∧
    ((edit_source_metadata [pluginFailing, pluginHealthy] [srcPlain]).setupOutcomes.get? 0 =
        some (Except.error "boom") ∧
     (∀ j q, j ≠ 0 →
        ([pluginFailing, pluginHealthy].filter (fun r => r.configOk)).get? j = some q →
        (edit_source_metadata [pluginFailing, pluginHealthy] [srcPlain]).setupOutcomes.get? j =
          some q.setup) ∧
     (edit_source_metadata [pluginFailing, pluginHealthy] [srcPlain]).finalSources =
       [srcPlain].map (applyEdit ([pluginFailing, pluginHealthy].filter
         (fun r => r.configOk)))) :=
  ⟨rfl, rfl, plugin_setup_isolation [pluginFailing, pluginHealthy] [srcPlain]
    0 pluginFailing "boom" rfl rfl⟩

/-- Helper: the matching loop ignores the active flag. -/
theorem matchOwner_active_invariant (f : IndexerPlugin → Bool)
    (ps : List IndexerPlugin) (s : ProwlarrSource) :
    matchOwner (ps.map fun p => { p with active := f p }) s = matchOwner ps s := by
  induction ps with
  | nil => rfl
  | cons p ps ih =>
    by_cases hp : p.is_matching_source s <;> simp [matchOwner, hp, ih]

/-- Helper: the queued edit calls ignore the active flag. -/
theorem editCallsAux_active_invariant (f : IndexerPlugin → Bool)
    (ps : List IndexerPlugin) (n : Nat) (ss : List ProwlarrSource) :
    editCallsAux (ps.map fun p => { p with active := f p }) n ss =
      editCallsAux ps n ss := by
  induction ss generalizing n with
  | nil => rfl
  | cons s ss ih =>
    rw [editCallsAux, editCallsAux, matchOwner_active_invariant]
    cases matchOwner ps s <;> simp [ih]

/-- Helper: the per-source edit application ignores the active flag. -/
theorem applyEdit_active_invariant (f : IndexerPlugin → Bool)
    (ps : List IndexerPlugin) (s : ProwlarrSource) :
    applyEdit (ps.map fun p => { p with active := f p }) s = applyEdit ps s := by
  unfold applyEdit
  rw [matchOwner_active_invariant]
  split
  · rename_i i heq
    rw [List.get?_map]
    cases ps.get? i <;> rfl
  · rfl

/-- Claim C9, amended: the coordinator skips a plugin only when resolving
its configuration fails; it never consults the active flag, so its whole
outcome (setups invoked, matches, edits) is invariant under arbitrarily
rewriting every plugin's active flag, and every configuration-valid
plugin has its setup invoked. -/
theorem active_flag_ignored (plugins : List IndexerPlugin)
    (sources : List ProwlarrSource) (f : IndexerPlugin → Bool) :
    edit_source_metadata (plugins.map fun p => { p with active := f p }) sources =
      edit_source_metadata plugins sources ∧
    (edit_source_metadata plugins sources).setupOutcomes =
      (plugins.filter (fun p => p.configOk)).map (fun p => p.setup) := by
  refine ⟨?_, rfl⟩
  have hfil : (plugins.map fun p => { p with active := f p }).filter
      (fun p => p.configOk) =
      (plugins.filter fun p => p.configOk).map (fun p => { p with active := f p }) := by
    rw [List.filter_map]
    rfl
  simp only [edit_source_metadata, hfil]
  have happ : applyEdit ((plugins.filter fun p => p.configOk).map
      (fun p => { p with active := f p })) =
      applyEdit (plugins.filter fun p => p.configOk) :=
    funext (applyEdit_active_invariant f _)
  rw [List.map_map, editCallsAux_active_invariant, happ]
  rfl

/-- Counterexample to claim C9 as stated: a plugin that is inactive by
configuration but has a valid configuration is not skipped — its setup is
invoked (its outcome is recorded) and it matches and mutates the source. -/
theorem inactive_plugin_participates :
    pluginInactive.active = false ∧
    (edit_source_metadata [pluginInactive] [srcPlain]).setupOutcomes =
      [Except.ok ()] ∧
    (edit_source_metadata [pluginInactive] [srcPlain]).finalSources ≠ [srcPlain] := by
  refine ⟨rfl, rfl, ?_⟩
  decide
